import Mathlib

/-!
Verification of the BB box-score web report tool (`web_tool.py`).

The embedded JavaScript of the report page recomputes shot statistics from
the serialized event list; the Python side validates the form, drives the
engine and serializes the finished game.  We embed the relevant functions
shallowly: JavaScript numbers on these code paths are integers, so slots,
shot-type codes, shot-result codes and game clocks are modelled as `Int`
(with `Option Int` where `Number(x)` may be non-finite).
-/

/-- One serialized shot event, with the fields the report's shot views read.
`attacker`/`defender` are raw slot references; `none` models a value whose
`Number(...)` conversion is not finite (non-numeric input). -/
structure ShotEvent where
  attacking_team : Int
  defending_team : Int
  attacker : Option Int
  defender : Option Int
  shot_type : Int
  shot_result : Int
deriving DecidableEq

/-- `normalizeSlot` from the report script: a finite slot value in `1..N`
becomes roster index `value - 1`; `0` and every other value resolve to no
player (`null`, here `none`). -/
def normalizeSlot (rawSlot : Option Int) (playersLen : Nat) : Option Nat :=
  match rawSlot with
  | none => none
  | some n =>
    if 1 ≤ n ∧ n ≤ (playersLen : Int) then some (n - 1).toNat
    else if n = 0 then none
    else none

/-- `resolvePlayerName` from the report script: resolve the slot against the
roster and fall back to the given string when unresolved or when the
resolved player's name is falsy (empty). -/
def resolvePlayerName (players : List (String)) (rawSlot : Option Int)
    (fallback : String) : String :=
  match normalizeSlot rawSlot players.length with
  | none => fallback
  | some idx =>
    match players.get? idx with
    | none => fallback
    | some name => if name = "" then fallback else name

/-- `periodFromClock` from the report script, on numeric (integer) clocks.
The non-number input branch (label `"?"`) is outside this domain. -/
def periodFromClock (gameclock : Int) : String :=
  if gameclock < 0 then "End"
  else if gameclock < 720 then "Q1"
  else if gameclock < 1440 then "Q2"
  else if gameclock < 2160 then "Q3"
  else if gameclock < 2880 then "Q4"
  else "OT"

/-- C2: slot resolution maps every `s` in `1..N` to roster index `s - 1`,
maps `0` to no player, and treats negative, out-of-range and non-numeric
values as unresolved, never producing an index outside the roster; slot 3
on a roster of at least 3 players resolves to roster index 2. -/
theorem c2_slot_resolution (raw : Option Int) (len : Nat) (idx : Nat) :
    (∀ s : Int, 1 ≤ s → s ≤ (len : Int) →
      normalizeSlot (some s) len = some (s - 1).toNat) ∧
    (normalizeSlot raw len = some idx → idx < len ∧ raw = some ((idx : Int) + 1)) ∧
    normalizeSlot (some 0) len = none ∧
    (∀ s : Int, s < 0 ∨ (len : Int) < s → normalizeSlot (some s) len = none) ∧
    normalizeSlot none len = none ∧
    (3 ≤ len → normalizeSlot (some 3) len = some 2) := by
  refine ⟨?_, ?_, ?_, ?_, rfl, ?_⟩
  · intro s h1 h2
    simp only [normalizeSlot]
    rw [if_pos ⟨h1, h2⟩]
  · intro h
    cases raw with
    | none => simp [normalizeSlot] at h
    | some n =>
      simp only [normalizeSlot] at h
      by_cases hr : 1 ≤ n ∧ n ≤ (len : Int)
      · rw [if_pos hr] at h
        have hidx : (n - 1).toNat = idx := by
          have := Option.some.inj h
          omega
        constructor
        · omega
        · have : n = (idx : Int) + 1 := by omega
          rw [this]
      · rw [if_neg hr] at h
        split at h <;> exact absurd h (by simp)
  · simp [normalizeSlot]
  · intro s hs
    simp only [normalizeSlot]
    have h1 : ¬ (1 ≤ s ∧ s ≤ (len : Int)) := by omega
    rw [if_neg h1]
    split <;> rfl
  · intro h3
    simp only [normalizeSlot]
    have h1 : 1 ≤ (3 : Int) ∧ (3 : Int) ≤ (len : Int) := by omega
    rw [if_pos h1]
    rfl

/-- Witness for C2 at concrete inputs. -/
theorem c2_slot_resolution_witness :
    normalizeSlot (some 2) 5 = some ((2 : Int) - 1).toNat ∧
    normalizeSlot (some 3) 5 = some 2 ∧ normalizeSlot (some 9) 5 = none := by
  exact ⟨(c2_slot_resolution (some 3) 5 2).1 2 (by omega) (by omega),
         (c2_slot_resolution (some 3) 5 2).2.2.2.2.2 (by omega),
         (c2_slot_resolution (some 3) 5 2).2.2.2.1 9 (by omega)⟩

/-- C4 counterexample: the report assigns a single undifferentiated label
`"OT"` to every overtime clock; clocks 2880 and 3600 lie in different
overtime periods under any fixed overtime length of at most 720 seconds,
yet receive the same period. -/
theorem c4_overtime_counterexample :
    periodFromClock 2880 = "OT" ∧ periodFromClock 3600 = "OT" := by
  constructor <;> rfl

/-- C4 (amended): quarter 1 iff `0 ≤ g < 720`, quarter 2 iff `720 ≤ g < 1440`,
quarter 3 iff `1440 ≤ g < 2160`, quarter 4 iff `2160 ≤ g < 2880`, and every
clock `g ≥ 2880` maps to the single overtime label, with no distinction
between successive overtime periods. -/
theorem c4_period_from_clock (g : Int) :
    (periodFromClock g = "Q1" ↔ 0 ≤ g ∧ g < 720) ∧
    (periodFromClock g = "Q2" ↔ 720 ≤ g ∧ g < 1440) ∧
    (periodFromClock g = "Q3" ↔ 1440 ≤ g ∧ g < 2160) ∧
    (periodFromClock g = "Q4" ↔ 2160 ≤ g ∧ g < 2880) ∧
    (periodFromClock g = "OT" ↔ 2880 ≤ g) := by
  unfold periodFromClock
  split_ifs <;> refine ⟨?_, ?_, ?_, ?_, ?_⟩ <;>
    constructor <;> intro h <;> first | omega | (exfalso; revert h; decide) | rfl

/-- The `shotTypeLabel` lookup object of the report script. -/
def shotTypeLabelTable : List (Int × String) :=
  [(100, "3PT Default"), (101, "3PT Top Key"), (102, "3PT Wing"),
   (103, "3PT Corner"), (104, "3PT Long"), (105, "3PT Halfcourt"),
   (200, "2PT Default"), (201, "2PT Elbow"), (202, "2PT Wing"),
   (203, "2PT Baseline"), (204, "2PT Top Key"),
   (401, "Dunk"), (402, "Layup"), (403, "Post Move"), (404, "Fade Away"),
   (405, "Hook"), (406, "Off Dribble J"), (407, "Putback Dunk"),
   (408, "Tip-in"), (409, "Rebound Shot"), (410, "Dunk"),
   (411, "Driving Layup")]

/-- Lookup in `shotTypeLabel`; `none` when the code has no label. -/
def shotTypeLabel (code : Int) : Option String :=
  (shotTypeLabelTable.find? (fun kv => kv.1 == code)).map Prod.snd

/-- Substring test on character lists, used to model JavaScript
`String.prototype.includes`. -/
def includesAux (pat : List Char) : List Char → Bool
  | [] => pat.isEmpty
  | c :: rest => pat.isPrefixOf (c :: rest) || includesAux pat rest

/-- `s.includes(pat)` of JavaScript. -/
def strIncludes (s pat : String) : Bool :=
  includesAux pat.data s.data

/-- `getShotRange` from the report script: label lookup with fallback to the
code's digits, then substring tests for `"3PT"` and `"2PT"`, default
`"paint"`. -/
def getShotRange (code : Int) : String :=
  let label := (shotTypeLabel code).getD (toString code)
  if strIncludes label "3PT" then "three"
  else if strIncludes label "2PT" then "jump"
  else "paint"

/-- C8: shot-range classification is total over shot-type codes: codes
100-105 map to `"three"`, 200-204 to `"jump"`, 401-411 to `"paint"`, and
every code receives exactly one of the three range labels. -/
theorem c8_shot_range_total (c : Int) :
    ((100 ≤ c ∧ c ≤ 105) → getShotRange c = "three") ∧
    ((200 ≤ c ∧ c ≤ 204) → getShotRange c = "jump") ∧
    ((401 ≤ c ∧ c ≤ 411) → getShotRange c = "paint") ∧
    (getShotRange c = "three" ∨ getShotRange c = "jump" ∨ getShotRange c = "paint") := by
  refine ⟨?_, ?_, ?_, ?_⟩
  · rintro ⟨h1, h2⟩
    interval_cases c <;> rfl
  · rintro ⟨h1, h2⟩
    interval_cases c <;> rfl
  · rintro ⟨h1, h2⟩
    interval_cases c <;> rfl
  · by_cases h3 : strIncludes ((shotTypeLabel c).getD (toString c)) "3PT"
    · left
      simp [getShotRange, h3]
    · by_cases h2 : strIncludes ((shotTypeLabel c).getD (toString c)) "2PT"
      · right; left
        simp [getShotRange, h3, h2]
      · right; right
        simp [getShotRange, h3, h2]

/-- Witness for C8 at concrete codes. -/
theorem c8_shot_range_total_witness :
    getShotRange 103 = "three" ∧ getShotRange 204 = "jump" ∧ getShotRange 407 = "paint" :=
  ⟨(c8_shot_range_total 103).1 (by omega),
   (c8_shot_range_total 204).2.1 (by omega),
   (c8_shot_range_total 407).2.2.1 (by omega)⟩

/-- `madeResults` set of the report script: result codes counted as made. -/
def madeResults (rc : Int) : Bool := rc == 1 || rc == 2 || rc == 5

/-- `missedResults` set of the report script. -/
def missedResults (rc : Int) : Bool := rc == 0 || rc == 4

/-- `blockedResults` set of the report script. -/
def blockedResults (rc : Int) : Bool := rc == 3

/-- One A/M/MI/B cell of the offense shot profile (`zeroOffCell`). -/
structure OffCell where
  a : Nat
  m : Nat
  mi : Nat
  b : Nat
deriving DecidableEq

/-- The all-zero cell produced by `zeroOffCell`. -/
def zeroOffCell : OffCell := ⟨0, 0, 0, 0⟩

/-- `addOffStat` from the report script: bump attempts, then exactly one of
made / blocked / missed, with unknown result codes falling through to
missed. -/
def addOffStat (cell : OffCell) (resultCode : Int) : OffCell :=
  let cell := { cell with a := cell.a + 1 }
  if madeResults resultCode then { cell with m := cell.m + 1 }
  else if blockedResults resultCode then { cell with b := cell.b + 1 }
  else if missedResults resultCode then { cell with mi := cell.mi + 1 }
  else { cell with mi := cell.mi + 1 }

/-- `madeCount` of `renderDefenderShotPanel`: result codes 1, 2, 5. -/
def defMadeCount (evs : List ShotEvent) : Nat :=
  (evs.filter (fun ev => ev.shot_result == 1 || ev.shot_result == 2 || ev.shot_result == 5)).length

/-- `missedCount` of `renderDefenderShotPanel`: result codes 0, 3, 4
(blocked shots included). -/
def defMissedCount (evs : List ShotEvent) : Nat :=
  (evs.filter (fun ev => ev.shot_result == 0 || ev.shot_result == 3 || ev.shot_result == 4)).length

/-- `blockedCount` of `renderDefenderShotPanel`: result code 3. -/
def defBlockedCount (evs : List ShotEvent) : Nat :=
  (evs.filter (fun ev => ev.shot_result == 3)).length

/-- `foulCount` of `renderDefenderShotPanel`: result codes 4, 5. -/
def defFoulCount (evs : List ShotEvent) : Nat :=
  (evs.filter (fun ev => ev.shot_result == 4 || ev.shot_result == 5)).length

/-- Shots whose result code is a plain miss (0) or miss-plus-foul (4). -/
def defStrictMissedCount (evs : List ShotEvent) : Nat :=
  (evs.filter (fun ev => ev.shot_result == 0 || ev.shot_result == 4)).length

/-- A blocked shot as it reaches the defender panel. -/
def blockedShot : ShotEvent :=
  { attacking_team := 0, defending_team := 1, attacker := some 1,
    defender := some 1, shot_type := 200, shot_result := 3 }

/-- C1 counterexample: one defended shot with result code 3 (blocked) is
counted by the defender panel both in `missedCount` and in `blockedCount`,
so the blocked bucket is not exclusive of the missed bucket in every view. -/
theorem c1_blocked_also_missed_counterexample :
    defMissedCount [blockedShot] = 1 ∧ defBlockedCount [blockedShot] = 1 := by
  decide

/-- C1 (amended): `addOffStat` classifies every shot into exactly one of the
three buckets — made for codes 1, 2, 5, blocked for code 3, and missed for
codes 0, 4 as well as any other code (never dropped) — while the defender
panel's `missedCount` counts blocked shots (code 3) in addition to codes 0
and 4, so there a blocked shot is counted both as blocked and as missed. -/
theorem c1_shot_result_buckets (cell : OffCell) (rc : Int) (evs : List ShotEvent) :
    addOffStat cell rc =
      { a := cell.a + 1,
        m := cell.m + (if rc = 1 ∨ rc = 2 ∨ rc = 5 then 1 else 0),
        mi := cell.mi + (if rc = 1 ∨ rc = 2 ∨ rc = 3 ∨ rc = 5 then 0 else 1),
        b := cell.b + (if rc = 3 then 1 else 0) } ∧
    defMissedCount evs = defBlockedCount evs + defStrictMissedCount evs := by
  constructor
  · unfold addOffStat madeResults missedResults blockedResults
    by_cases h1 : rc = 1 <;> by_cases h2 : rc = 2 <;> by_cases h5 : rc = 5 <;>
      by_cases h3 : rc = 3 <;> by_cases h0 : rc = 0 <;> by_cases h4 : rc = 4 <;>
      simp_all
  · induction evs with
    | nil => rfl
    | cons e rest ih =>
      unfold defMissedCount defBlockedCount defStrictMissedCount at *
      by_cases h0 : e.shot_result = 0 <;> by_cases h3 : e.shot_result = 3 <;>
        by_cases h4 : e.shot_result = 4 <;>
        simp_all [List.filter_cons] <;> omega

/-- Componentwise sum of two offense cells, as `renderOffenseShotProfile`
accumulates player cells into `teamCounts`. -/
def addCell (x y : OffCell) : OffCell :=
  ⟨x.a + y.a, x.m + y.m, x.mi + y.mi, x.b + y.b⟩

/-- The "Total" cell of one player row in `renderOffenseShotProfile`: the
fold of `addOffStat` over the shot events attributed to that player.  The
source keeps one cell per shot-type code present in the match and sums
them; since each event's own code is always in that key set, the total over
codes equals this per-event fold. -/
def profilePlayerCell (evs : List ShotEvent) (side : Int) (rosterLen : Nat)
    (playerIdx : Nat) : OffCell :=
  evs.foldl
    (fun cell ev =>
      if ev.attacking_team = side ∧ normalizeSlot ev.attacker rosterLen = some playerIdx
      then addOffStat cell ev.shot_result else cell)
    zeroOffCell

/-- The team "Total" cell in `renderOffenseShotProfile`: `teamCounts` is
accumulated purely as the sum of the player cells. -/
def profileTeamCell (evs : List ShotEvent) (side : Int) (rosterLen : Nat) : OffCell :=
  (List.range rosterLen).foldl
    (fun acc i => addCell acc (profilePlayerCell evs side rosterLen i)) zeroOffCell

/-- One player's attempt count for one range in `buildOffenseByRange`
(`out[range][idx].a`); events with an unresolved attacker slot are skipped
(`if (idx === null) return`). -/
def rangePlayerA (evs : List ShotEvent) (side : Int) (rosterLen : Nat)
    (range : String) (idx : Nat) : Nat :=
  evs.foldl
    (fun n ev =>
      if ev.attacking_team = side ∧ normalizeSlot ev.attacker rosterLen = some idx ∧
          getShotRange ev.shot_type = range
      then n + 1 else n)
    0

/-- One range bucket of the team pie in `renderRangeCharts`: every shot of
the attacking team is counted, with no attacker-slot check. -/
def teamRangeCount (evs : List ShotEvent) (side : Int) (range : String) : Nat :=
  evs.foldl
    (fun n ev =>
      if ev.attacking_team = side ∧ getShotRange ev.shot_type = range
      then n + 1 else n)
    0

/-- Total of the team range pie in `renderRangeCharts`. -/
def teamRangeTotal (evs : List ShotEvent) (side : Int) : Nat :=
  teamRangeCount evs side "three" + teamRangeCount evs side "jump" +
    teamRangeCount evs side "paint"

/-- Every shot-type code lands in exactly one of the three range labels. -/
theorem getShotRange_cases (c : Int) :
    getShotRange c = "three" ∨ getShotRange c = "jump" ∨ getShotRange c = "paint" := by
  by_cases h3 : strIncludes ((shotTypeLabel c).getD (toString c)) "3PT"
  · left
    simp [getShotRange, h3]
  · by_cases h2 : strIncludes ((shotTypeLabel c).getD (toString c)) "2PT"
    · right; left
      simp [getShotRange, h3, h2]
    · right; right
      simp [getShotRange, h3, h2]

/-- A home-team shot whose attacker slot 0 carries no individual actor. -/
def unresolvedShot : ShotEvent :=
  { attacking_team := 0, defending_team := 1, attacker := some 0,
    defender := some 2, shot_type := 100, shot_result := 1 }

/-- C3 counterexample: after a single home shot with an unresolved attacker
slot, the team total of the offense shot profile is still 0 attempts — the
team cells are sums of player cells, so the claimed team-level increment of
1 does not happen in this view. -/
theorem c3_team_attempt_counterexample :
    (profileTeamCell [unresolvedShot] 0 5).a = 0 := by
  decide

/-- C3 (amended): a shot event whose attacker slot is unresolved changes no
player cell and — because the team cells of the offense shot profile and
the offense-by-range table are sums of player cells — no team cell of those
views either; the shot is still counted once in the attacking team's range
pie, which filters on the team only, and processing continues. -/
theorem c3_unresolved_slot_degrades (evs : List ShotEvent) (ev : ShotEvent)
    (side : Int) (rosterLen : Nat)
    (hside : ev.attacking_team = side)
    (hun : normalizeSlot ev.attacker rosterLen = none) :
    (∀ i, profilePlayerCell (evs ++ [ev]) side rosterLen i =
      profilePlayerCell evs side rosterLen i) ∧
    profileTeamCell (evs ++ [ev]) side rosterLen = profileTeamCell evs side rosterLen ∧
    (∀ r i, rangePlayerA (evs ++ [ev]) side rosterLen r i =
      rangePlayerA evs side rosterLen r i) ∧
    teamRangeTotal (evs ++ [ev]) side = teamRangeTotal evs side + 1 := by
  have hplayer : ∀ i, profilePlayerCell (evs ++ [ev]) side rosterLen i =
      profilePlayerCell evs side rosterLen i := by
    intro i
    simp [profilePlayerCell, List.foldl_append, hun]
  refine ⟨hplayer, ?_, ?_, ?_⟩
  · unfold profileTeamCell
    refine List.foldl_ext _ _ _ ?_
    intro acc i _
    rw [hplayer i]
  · intro r i
    simp [rangePlayerA, List.foldl_append, hun]
  · have hcount : ∀ r, teamRangeCount (evs ++ [ev]) side r =
        teamRangeCount evs side r + (if getShotRange ev.shot_type = r then 1 else 0) := by
      intro r
      by_cases hr : getShotRange ev.shot_type = r <;>
        simp [teamRangeCount, List.foldl_append, hside, hr]
    rcases getShotRange_cases ev.shot_type with h | h | h <;>
      simp [teamRangeTotal, hcount, h] <;> omega

/-- Witness for C3 (amended) at a concrete unresolved-slot shot. -/
theorem c3_unresolved_slot_degrades_witness :
    profileTeamCell ([] ++ [unresolvedShot]) 0 5 = profileTeamCell [] 0 5 ∧
    teamRangeTotal ([] ++ [unresolvedShot]) 0 = teamRangeTotal [] 0 + 1 :=
  ⟨(c3_unresolved_slot_degrades [] unresolvedShot 0 5 rfl (by decide)).2.1,
   (c3_unresolved_slot_degrades [] unresolvedShot 0 5 rfl (by decide)).2.2.2⟩

/-- Modelled from the spec: the counted fields of one stat accumulator
(`game.py` is not part of the sources; §3 and §6 of the spec list the
fields).  The derived minutes value is excluded: §9 explicitly leaves its
rounding rule open, so only counted fields are modelled. -/
inductive StatField where
  | pts | fgm | fga | tpm | tpa | ftm | fta | tr | orb | drb
  | ast | tov | stl | blk | pf | pm
  | secsPg | secsSg | secsSf | secsPf | secsC
deriving DecidableEq

/-- A stat window: one integer counter per field (`plus/minus` is signed,
the rest are non-negative; a single signed carrier covers both). -/
def StatLine : Type := StatField → Int

/-- The four regulation quarter windows of an accumulator set. -/
inductive Quarter where
  | q1 | q2 | q3 | q4
deriving DecidableEq

/-- Modelled from the spec: per-entity accumulators, one line per quarter
plus one full-game line (§3 Player/Team, `stats.qtr` / `stats.full`). -/
structure StatSet where
  qtr : Quarter → StatLine
  full : StatLine

/-- The all-zero stat line accumulators start from. -/
def zeroLine : StatLine := fun _ => 0

/-- Componentwise sum of stat lines. -/
def addLine (x y : StatLine) : StatLine := fun k => x k + y k

/-- Accumulators start at zero before replay. -/
def initialStatSet : StatSet := { qtr := fun _ => zeroLine, full := zeroLine }

/-- Modelled from the spec: one engine increment, applied to the current
quarter's accumulator and mirrored into the full-game accumulator in the
same step (§4.4: "Every increment ... is mirrored into both"). -/
def applyDelta (s : StatSet) (q : Quarter) (d : StatLine) : StatSet :=
  { qtr := fun w => if w = q then addLine (s.qtr w) d else s.qtr w,
    full := addLine s.full d }

/-- Modelled from the spec: the replay pass over an entity's increments, in
event order.  Each event the engine dispatches contributes one delta
(tagged with the quarter derived from its gameclock), so an arbitrary delta
list covers every valid event sequence. -/
def replay (s : StatSet) (ds : List (Quarter × StatLine)) : StatSet :=
  ds.foldl (fun acc qd => applyDelta acc qd.1 qd.2) s

/-- The sum of one field over the four quarter windows. -/
def sumQuartersAt (ss : StatSet) (k : StatField) : Int :=
  ss.qtr Quarter.q1 k + ss.qtr Quarter.q2 k + ss.qtr Quarter.q3 k + ss.qtr Quarter.q4 k

/-- One increment step preserves the quarter-sum decomposition. -/
theorem applyDelta_sum (s : StatSet) (q : Quarter) (d : StatLine) (k : StatField) :
    sumQuartersAt (applyDelta s q d) k = sumQuartersAt s k + d k := by
  cases q <;> simp [sumQuartersAt, applyDelta, addLine] <;> ring

/-- Replay preserves reconciliation from any reconciled start state. -/
theorem replay_reconciles (ds : List (Quarter × StatLine)) :
    ∀ s : StatSet, (∀ k, sumQuartersAt s k = s.full k) →
      ∀ k, sumQuartersAt (replay s ds) k = (replay s ds).full k := by
  induction ds with
  | nil => intro s h k; exact h k
  | cons qd rest ih =>
    intro s h k
    have hstep : ∀ k2, sumQuartersAt (applyDelta s qd.1 qd.2) k2 =
        (applyDelta s qd.1 qd.2).full k2 := by
      intro k2
      rw [applyDelta_sum]
      show _ = addLine s.full qd.2 k2
      simp [addLine, h k2]
    exact ih (applyDelta s qd.1 qd.2) hstep k

/-- A plain JSON-like value, the shape `serialize_game` assembles. -/
inductive JVal where
  | jnum (n : Int)
  | jstr (s : String)
  | jbool (b : Bool)
  | jarr (xs : List JVal)
  | jobj (fields : List (String × JVal))

/-- The keys of a JSON object, in insertion order; `[]` for non-objects. -/
def objKeys : JVal → List String
  | JVal.jobj fields => fields.map Prod.fst
  | _ => []

/-- The value stored under a key of a JSON object. -/
def lookupField (j : JVal) (k : String) : Option JVal :=
  match j with
  | JVal.jobj fields => (fields.find? (fun kv => kv.1 == k)).map Prod.snd
  | _ => none

/-- Modelled from the spec: the output keys of `team_stats()` in the missing
`game.py`, per §6 of the spec (counted fields only; see `StatField`). -/
def team_stats_fields : List (String × StatField) :=
  [("pts", StatField.pts), ("fgm", StatField.fgm), ("fga", StatField.fga),
   ("tpm", StatField.tpm), ("tpa", StatField.tpa), ("ftm", StatField.ftm),
   ("fta", StatField.fta), ("tr", StatField.tr), ("or", StatField.orb),
   ("dr", StatField.drb), ("ast", StatField.ast), ("to", StatField.tov),
   ("stl", StatField.stl), ("blk", StatField.blk), ("pf", StatField.pf),
   ("+/-", StatField.pm)]

/-- Modelled from the spec: the output keys of `player_stats()`; players
additionally carry per-position seconds (§6). -/
def player_stats_fields : List (String × StatField) :=
  team_stats_fields ++
    [("secs_pg", StatField.secsPg), ("secs_sg", StatField.secsSg),
     ("secs_sf", StatField.secsSf), ("secs_pf", StatField.secsPf),
     ("secs_c", StatField.secsC)]

/-- `player_stats()` of one window as an ordered key/value list. -/
def player_stats (s : StatLine) : List (String × JVal) :=
  player_stats_fields.map (fun kv => (kv.1, JVal.jnum (s kv.2)))

/-- `team_stats()` of one window as an ordered key/value list. -/
def team_stats (s : StatLine) : List (String × JVal) :=
  team_stats_fields.map (fun kv => (kv.1, JVal.jnum (s kv.2)))

/-- Modelled from the spec: a player record as the engine holds it. -/
structure Player where
  id : Int
  name : String
  starter : Bool
  stats : StatSet

/-- Modelled from the spec: a team record as the engine holds it. -/
structure Team where
  id : Int
  name : String
  players : List Player
  stats : StatSet

/-- Modelled from the spec: the finished game state `serialize_game` reads.
`game.teams` is always the two-element list home-then-away, modelled as two
fields; `baseevents` holds the already-serialized event records the
adapter passes through unchanged. -/
structure Game where
  teamHome : Team
  teamAway : Team
  baseevents : List JVal

/-- The per-quarter-plus-total stats object for a player, as built in
`serialize_game` (keys `q1`..`q4` inserted in order, then `total`). -/
def playerStatsObj (ss : StatSet) : JVal :=
  JVal.jobj
    [("q1", JVal.jobj (player_stats (ss.qtr Quarter.q1))),
     ("q2", JVal.jobj (player_stats (ss.qtr Quarter.q2))),
     ("q3", JVal.jobj (player_stats (ss.qtr Quarter.q3))),
     ("q4", JVal.jobj (player_stats (ss.qtr Quarter.q4))),
     ("total", JVal.jobj (player_stats ss.full))]

/-- The per-quarter-plus-total stats object for a team in `serialize_game`. -/
def teamStatsObj (ss : StatSet) : JVal :=
  JVal.jobj
    [("q1", JVal.jobj (team_stats (ss.qtr Quarter.q1))),
     ("q2", JVal.jobj (team_stats (ss.qtr Quarter.q2))),
     ("q3", JVal.jobj (team_stats (ss.qtr Quarter.q3))),
     ("q4", JVal.jobj (team_stats (ss.qtr Quarter.q4))),
     ("total", JVal.jobj (team_stats ss.full))]

/-- One player entry of `serialize_game`. -/
def serializePlayer (p : Player) : JVal :=
  JVal.jobj
    [("id", JVal.jnum p.id), ("name", JVal.jstr p.name),
     ("starter", JVal.jbool p.starter), ("stats", playerStatsObj p.stats)]

/-- One team entry of `serialize_game`, players serialized in roster order. -/
def serializeTeam (t : Team) : JVal :=
  JVal.jobj
    [("id", JVal.jnum t.id), ("name", JVal.jstr t.name),
     ("players", JVal.jarr (t.players.map serializePlayer)),
     ("stats", teamStatsObj t.stats)]

/-- `serialize_game` from `web_tool.py`. -/
def serialize_game (g : Game) : JVal :=
  JVal.jobj
    [("teamHome", serializeTeam g.teamHome),
     ("teamAway", serializeTeam g.teamAway),
     ("events", JVal.jarr g.baseevents)]

/-- C5: each serialized team object carries exactly the keys id, name,
players, stats; its stats object exactly the keys q1..q4 and total; each
player entry exactly id, name, starter, stats with the same stat keys; and
the players array lists the roster in its original order. -/
theorem c5_serialized_shape (g : Game) (t : Team) (p : Player) :
    objKeys (serializeTeam t) = ["id", "name", "players", "stats"] ∧
    objKeys (teamStatsObj t.stats) = ["q1", "q2", "q3", "q4", "total"] ∧
    lookupField (serializeTeam t) "players" =
      some (JVal.jarr (t.players.map serializePlayer)) ∧
    objKeys (serializePlayer p) = ["id", "name", "starter", "stats"] ∧
    objKeys (playerStatsObj p.stats) = ["q1", "q2", "q3", "q4", "total"] ∧
    serialize_game g = JVal.jobj
      [("teamHome", serializeTeam g.teamHome),
       ("teamAway", serializeTeam g.teamAway),
       ("events", JVal.jarr g.baseevents)] :=
  ⟨rfl, rfl, rfl, rfl, rfl, rfl⟩

/-- C6: after replaying any delta sequence from the all-zero accumulators,
for every stat field of the serialized output the four quarter values sum
exactly to the value serialized under "total"; the serialized entries carry
precisely the accumulator values. -/
theorem c6_quarter_total_reconciliation (ds : List (Quarter × StatLine))
    (key : String) (k : StatField)
    (hk : (key, k) ∈ player_stats_fields) :
    ((key, JVal.jnum ((replay initialStatSet ds).qtr Quarter.q1 k)) ∈
      player_stats ((replay initialStatSet ds).qtr Quarter.q1)) ∧
    ((key, JVal.jnum ((replay initialStatSet ds).full k)) ∈
      player_stats ((replay initialStatSet ds).full)) ∧
    (replay initialStatSet ds).qtr Quarter.q1 k + (replay initialStatSet ds).qtr Quarter.q2 k +
      (replay initialStatSet ds).qtr Quarter.q3 k + (replay initialStatSet ds).qtr Quarter.q4 k =
      (replay initialStatSet ds).full k := by
  refine ⟨List.mem_map_of_mem _ hk, List.mem_map_of_mem _ hk, ?_⟩
  have h0 : ∀ k2, sumQuartersAt initialStatSet k2 = initialStatSet.full k2 := by
    intro k2
    simp [sumQuartersAt, initialStatSet, zeroLine]
  have hmain := replay_reconciles ds initialStatSet h0 k
  simpa [sumQuartersAt] using hmain

/-- A one-increment-everywhere delta line. -/
def oneLine : StatLine := fun _ => 1

/-- Witness for C6 over a one-delta replay on the points field. -/
theorem c6_quarter_total_reconciliation_witness :
    (replay initialStatSet [(Quarter.q1, oneLine)]).qtr Quarter.q1 StatField.pts +
      (replay initialStatSet [(Quarter.q1, oneLine)]).qtr Quarter.q2 StatField.pts +
      (replay initialStatSet [(Quarter.q1, oneLine)]).qtr Quarter.q3 StatField.pts +
      (replay initialStatSet [(Quarter.q1, oneLine)]).qtr Quarter.q4 StatField.pts =
      (replay initialStatSet [(Quarter.q1, oneLine)]).full StatField.pts :=
  (c6_quarter_total_reconciliation [(Quarter.q1, oneLine)] "pts" StatField.pts
    (by decide)).2.2

/-- C7: `serialize_game` is a pure function of the finished game state —
field-for-field equal states serialize to identical outputs, with no
dependence on hidden state. -/
theorem c7_serialize_deterministic (g1 g2 : Game) (h : g1 = g2) :
    serialize_game g1 = serialize_game g2 := by
  rw [h]

/-- A concrete finished game state. -/
def sampleGame : Game :=
  { teamHome := { id := 1, name := "Home", players := [], stats := initialStatSet },
    teamAway := { id := 2, name := "Away", players := [], stats := initialStatSet },
    baseevents := [] }

/-- Witness for C7 at a concrete game state. -/
theorem c7_serialize_deterministic_witness :
    serialize_game sampleGame = serialize_game sampleGame :=
  c7_serialize_deterministic sampleGame sampleGame rfl

/-- Leading-whitespace removal on a character list. -/
def dropWhitespace : List Char → List Char
  | [] => []
  | c :: rest => if c.isWhitespace then dropWhitespace rest else c :: rest

/-- Python `str.strip()` as applied to the submitted form fields:
whitespace removed from both ends. -/
def pyStrip (s : String) : String :=
  ⟨(dropWhitespace (dropWhitespace s.data).reverse).reverse⟩

/-- Python `str.isdigit()`: nonempty and every character in the digit
class.  The character-level digit class `isdig` is a parameter of the
model: Python accepts the ASCII digits but also further Unicode digit
characters, so the class is kept abstract and every statement below holds
for Python's real class in particular. -/
def pyIsDigit (isdig : Char → Bool) (s : String) : Bool :=
  !s.data.isEmpty && s.data.all isdig

/-- Which template a `/report` response renders. -/
inductive Page where
  | form
  | reportPage
deriving DecidableEq

/-- One rendered response of the POST `/report` handler: the template, the
HTTP status, the template arguments, and a flag recording whether
`generate_report` (the BBAPI call plus engine construction) was invoked. -/
structure HandlerResponse where
  page : Page
  status : Nat
  error : String
  username : String
  password : String
  matchid : String
  calledGenerate : Bool
deriving DecidableEq

/-- The POST `/report` handler of `web_tool.py`, over a character-level
digit class `isdig`.  `gen` is the outcome `generate_report` would have
for this request; `Except.error` models a raised exception.  The success
page re-renders only username and matchid, so its password argument is the
empty string. -/
def report (isdig : Char → Bool) (username password matchid : String)
    (gen : Except String Unit) : HandlerResponse :=
  let username := pyStrip username
  let password := pyStrip password
  let matchid := pyStrip matchid
  if username = "" ∨ password = "" ∨ matchid = "" then
    { page := Page.form, status := 400, error := "All fields are required.",
      username := username, password := password, matchid := matchid,
      calledGenerate := false }
  else if pyIsDigit isdig matchid = false then
    { page := Page.form, status := 400, error := "Match ID must be numeric.",
      username := username, password := password, matchid := matchid,
      calledGenerate := false }
  else
    match gen with
    | Except.error exc =>
      { page := Page.form, status := 500,
        error := "Failed to generate report: " ++ exc,
        username := username, password := "", matchid := matchid,
        calledGenerate := true }
    | Except.ok _ =>
      { page := Page.reportPage, status := 200, error := "",
        username := username, password := "", matchid := matchid,
        calledGenerate := true }

/-- C9: a POST /report whose trimmed username, password or matchid is
empty, or whose trimmed matchid contains any non-digit character — for
every character-level digit class, so in particular for Python's own — is
answered with status 400 and the re-rendered form, and report generation
(the BBAPI call plus engine construction) is never invoked. -/
theorem c9_invalid_form_rejected (isdig : Char → Bool) (u p m : String)
    (gen : Except String Unit)
    (h : pyStrip u = "" ∨ pyStrip p = "" ∨ pyStrip m = "" ∨
      ∃ c ∈ (pyStrip m).data, isdig c = false) :
    (report isdig u p m gen).status = 400 ∧
    (report isdig u p m gen).page = Page.form ∧
    (report isdig u p m gen).calledGenerate = false := by
  by_cases he : pyStrip u = "" ∨ pyStrip p = "" ∨ pyStrip m = ""
  · simp [report, he]
  · have hx : ∃ c ∈ (pyStrip m).data, isdig c = false := by tauto
    obtain ⟨c, hc, hcd⟩ := hx
    have hd : pyIsDigit isdig (pyStrip m) = false := by
      cases hall : (pyStrip m).data.all isdig with
      | true =>
        have hct := List.all_eq_true.mp hall c hc
        rw [hcd] at hct
        exact absurd hct (by decide)
      | false => simp [pyIsDigit, hall]
    simp [report, he, hd]

/-- Witness for C9 at a request whose matchid carries a non-digit. -/
theorem c9_invalid_form_rejected_witness :
    (report Char.isDigit "alice" "pw" "12x" (Except.ok ())).status = 400 ∧
    (report Char.isDigit "alice" "pw" "12x" (Except.ok ())).page = Page.form ∧
    (report Char.isDigit "alice" "pw" "12x" (Except.ok ())).calledGenerate = false :=
  c9_invalid_form_rejected Char.isDigit "alice" "pw" "12x" (Except.ok ())
    (Or.inr (Or.inr (Or.inr ⟨'x', by decide, by decide⟩)))

/-- C10 counterexample: on a failing generation the handler echoes the
*trimmed* username, so a username submitted with surrounding whitespace is
not echoed unchanged (the password field is still empty). -/
theorem c10_trimmed_echo_counterexample :
    (report Char.isDigit " alice " "pw" "123" (Except.error "boom")).status = 500 ∧
    (report Char.isDigit " alice " "pw" "123" (Except.error "boom")).password = "" ∧
    (report Char.isDigit " alice " "pw" "123" (Except.error "boom")).username = "alice" ∧
    " alice " ≠ "alice" := by
  refine ⟨?_, ?_, ?_, ?_⟩ <;> decide

/-- C10 (amended): whenever `generate_report` raises, the handler — for
every character-level digit class — answers 500 with the re-rendered form,
the password field is the empty string (the submitted password is never
sent back), and username and matchid are echoed as their
whitespace-trimmed submitted values, unchanged exactly when the submission
carries no surrounding whitespace. -/
theorem c10_error_page_hides_password (isdig : Char → Bool) (u p m e : String)
    (hu : ¬ pyStrip u = "") (hp : ¬ pyStrip p = "")
    (hm : pyIsDigit isdig (pyStrip m) = true) :
    (report isdig u p m (Except.error e)).status = 500 ∧
    (report isdig u p m (Except.error e)).page = Page.form ∧
    (report isdig u p m (Except.error e)).password = "" ∧
    (report isdig u p m (Except.error e)).username = pyStrip u ∧
    (report isdig u p m (Except.error e)).matchid = pyStrip m := by
  have hm0 : ¬ pyStrip m = "" := by
    intro h0
    rw [h0] at hm
    simp [pyIsDigit] at hm
  have he : ¬ (pyStrip u = "" ∨ pyStrip p = "" ∨ pyStrip m = "") := by tauto
  simp [report, he, hm]

/-- Witness for C10 (amended) at a concrete failing request. -/
theorem c10_error_page_hides_password_witness :
    (report Char.isDigit " alice " "pw" "123" (Except.error "x")).password = "" ∧
    (report Char.isDigit " alice " "pw" "123" (Except.error "x")).username =
      pyStrip " alice " :=
  ⟨(c10_error_page_hides_password Char.isDigit " alice " "pw" "123" "x"
      (by decide) (by decide) (by decide)).2.2.1,
   (c10_error_page_hides_password Char.isDigit " alice " "pw" "123" "x"
      (by decide) (by decide) (by decide)).2.2.2.1⟩
